import Mathlib

/-!
Verification of the benchmark-execution engine in
`amazon/ionbenchmark/benchmark_runner.py`.

The runner is single-threaded and straight-line, so it is embedded as pure
functions with explicit state passing.  The process-wide mutable state the
code touches (the garbage collector's enabled flag and the allocation
tracer's running flag) is a `ProcState` value threaded through each
function; a Python exception is an `Except.error` value; the runtime
environment the code consults (interpreter kind, the test-harness
environment marker, what `autorange` and `tracemalloc` report, what the
clock measures) is an `Env` record of parameters.
-/

/-- The process-wide mutable state the runner manipulates:
`gcEnabled` is the garbage collector's enabled flag (`gc.enable` /
`gc.disable`), `tracing` is whether the allocation tracer is running
(`tracemalloc.start` / `tracemalloc.stop`). -/
structure ProcState where
  gcEnabled : Bool
  tracing : Bool
deriving DecidableEq, Repr

/-- Python exceptions the embedded code can raise: `NotImplementedError`
carrying the offending `match_arg` list, or an exception raised by the
test callable itself. -/
inductive RunError where
  | notImplemented (matchArg : List String)
  | testFnError
deriving DecidableEq, Repr

/-- The accessors of `BenchmarkSpec` that `benchmark_runner.py` uses
(the class itself is an external collaborator). -/
structure BenchmarkSpec where
  io_type : String
  command : String
  api : String
  py_gc_disabled : Bool
  warmups : Nat
  iterations : Nat
  format : String
  input_file : String
deriving DecidableEq, Repr

/-- The zero-argument test callable `_create_test_fun` returns, described
by which of the four bodies it is and the data it closed over during the
untimed setup. -/
inductive TestFn where
  /-- `loader_dumper.loads(buffer)` where `buffer` was read from the input
  file during setup. -/
  | loads (input_file : String)
  /-- `loader_dumper.dumps(data_obj)`. -/
  | dumps
  /-- open the data file for binary read, `loader_dumper.load(f)`, close. -/
  | loadFile (data_file : String)
  /-- open a fresh `tempfile.TemporaryFile(mode=mode)`,
  `loader_dumper.dump(data_obj, f)`, close. -/
  | dumpTempFile (mode : String)
deriving DecidableEq, Repr

/-- A single quote character, as Python `repr` places around a string. -/
def pyQuote : String := String.singleton (Char.ofNat 39)

/-- Python `repr` of a string of a list of strings, as the f-string
`f"{match_arg}"` renders `match_arg`. -/
def pyStrRepr (s : String) : String := pyQuote ++ s ++ pyQuote

/-- The comma-separated interior of a Python list rendering. -/
def pyListReprAux : List String → String
  | [] => ""
  | [x] => pyStrRepr x
  | x :: y :: xs => pyStrRepr x ++ ", " ++ pyListReprAux (y :: xs)

/-- Python rendering of a list of strings, as in
`f"Argument combination not supported: {match_arg}"`. -/
def pyListRepr (l : List String) : String :=
  "[" ++ pyListReprAux l ++ "]"

/-- The message of the `NotImplementedError` raised by `_create_test_fun`. -/
def notImplementedMessage (matchArg : List String) : String :=
  "Argument combination not supported: " ++ pyListRepr matchArg

/-- The four `(io_type, command, api)` combinations `_create_test_fun`
implements. -/
def supportedCombinations : List (List String) :=
  [["buffer", "read", "load_dump"],
   ["buffer", "write", "load_dump"],
   ["file", "read", "load_dump"],
   ["file", "write", "load_dump"]]

/-- Embedding of `_create_test_fun(benchmark_spec)`.  The format
classification helpers `_format.format_is_binary` and
`_format.format_is_ion` are external collaborators (their module is not
part of the runner), so they are passed in as parameters. -/
def _create_test_fun (format_is_binary format_is_ion : String → Bool)
    (spec : BenchmarkSpec) : Except RunError TestFn :=
  let match_arg := [spec.io_type, spec.command, spec.api]
  if match_arg = ["buffer", "read", "load_dump"] then
    .ok (.loads spec.input_file)
  else if match_arg = ["buffer", "write", "load_dump"] then
    .ok .dumps
  else if match_arg = ["file", "read", "load_dump"] then
    .ok (.loadFile spec.input_file)
  else if match_arg = ["file", "write", "load_dump"] then
    if format_is_binary spec.format || format_is_ion spec.format then
      .ok (.dumpTempFile "wb")
    else
      .ok (.dumpTempFile "wt")
  else
    .error (.notImplemented match_arg)

/-- Embedding of `_trace_memory_allocation(test_fn)`.  `fnRaises` is
whether the single invocation `test_fn(*args, **kwargs)` raises; `peak`
is what `tracemalloc.get_traced_memory()[1]` reports.  The function body
is straight-line Python with no `try`/`finally`: on an exception the
remaining statements simply never run. -/
def _trace_memory_allocation (fnRaises : Bool) (peak : Nat) (s : ProcState) :
    ProcState × Except RunError Nat :=
  let s1 : ProcState := { s with gcEnabled := false }
  let s2 : ProcState := { s1 with tracing := true }
  if fnRaises then
    (s2, .error .testFnError)
  else
    let memory_usage_peak := peak
    let s3 : ProcState := { s2 with tracing := false }
    let s4 : ProcState := { s3 with gcEnabled := true }
    (s4, .ok memory_usage_peak)

/-- The runtime environment `run_benchmark` consults: `pypy` is
`platform.python_implementation() == 'PyPy'` (checked once at import);
`testMode` is whether `PYTEST_CURRENT_TEST` is in `os.environ`;
`autorangeCount` is the count `Timer.autorange()` returns (`timeit`
guarantees it is at least 1); `profPeak` and `profRaises` describe the
single memory-profiling invocation of the test callable; `timedRaises`
is whether the callable raises during any timed execution (warm-up,
range-finding or sampling); `rawTiming i` is the elapsed nanoseconds the
clock reports for the `i`-th sample batch. -/
structure Env where
  pypy : Bool
  testMode : Bool
  autorangeCount : Nat
  profPeak : Nat
  profRaises : Bool
  timedRaises : Bool
  rawTiming : Nat → ℚ

/-- The batch size `run_benchmark` settles on: 1 under the test harness,
otherwise the auto-ranged count multiplied by 5. -/
def batch_size_of (testMode : Bool) (autorangeCount : Nat) : Nat :=
  if testMode then 1 else autorangeCount * 5

/-- The raw batch timings `timer.repeat(iterations, batch_size)` returns:
one timing per iteration. -/
def raw_timings_of (iterations : Nat) (env : Env) : List ℚ :=
  (List.range iterations).map env.rawTiming

/-- Embedding of `BenchmarkResult`.  `SampleDist` is an external
statistical wrapper around the sample list, treated as the list itself. -/
structure BenchmarkResult where
  nanos_per_op : List ℚ
  ops_per_second : List ℚ
  peak_memory_usage : Option Nat
deriving DecidableEq, Repr

/-- Embedding of `run_benchmark(benchmark_spec)`.  Statements in source
order: build the test callable; profile memory (skipped entirely on
PyPy); build the `setup` string that disables or enables the collector
per the spec's flag; warm up (`timer.timeit` runs the setup once before
the statements, so after the warm-up the collector state equals the
negation of the flag, and every later setup run re-establishes the same
state); range-find unless under the test harness; collect
`iterations` samples of `batch_size` invocations; normalize. -/
def run_benchmark (format_is_binary format_is_ion : String → Bool)
    (spec : BenchmarkSpec) (env : Env) (s : ProcState) :
    ProcState × Except RunError BenchmarkResult :=
  match _create_test_fun format_is_binary format_is_ion spec with
  | .error e => (s, .error e)
  | .ok _test_fun =>
    -- memory profiling
    let profStep : ProcState × Except RunError (Option Nat) :=
      if env.pypy then (s, .ok none)
      else
        match _trace_memory_allocation env.profRaises env.profPeak s with
        | (s1, .error e) => (s1, .error e)
        | (s1, .ok m) => (s1, .ok (some m))
    match profStep with
    | (s1, .error e) => (s1, .error e)
    | (s1, .ok peak_memory_usage) =>
      -- `setup` is "import gc; gc.disable()" or "import gc; gc.enable()";
      -- it runs before the warm-up, before range-finding, and before each
      -- sample batch, each time leaving the collector in the same state.
      let s2 : ProcState := { s1 with gcEnabled := !spec.py_gc_disabled }
      if env.timedRaises then
        (s2, .error .testFnError)
      else
        let batch_size := batch_size_of env.testMode env.autorangeCount
        let raw_timings := raw_timings_of spec.iterations env
        let nanos_per_op := raw_timings.map (fun t => t / (batch_size : ℚ))
        let ops_per_sec := nanos_per_op.map (fun t => (1000000000 : ℚ) / t)
        (s2, .ok { nanos_per_op := nanos_per_op,
                   ops_per_second := ops_per_sec,
                   peak_memory_usage := peak_memory_usage })

/-- One invocation of a test callable, tracking temporary-file handles:
given how many temporary files are open before the call, returns how many
are open after it, how many fresh ones the invocation opened, and the
outcome.  The `with` statement closes the file on both the normal and
the exceptional exit, so the open count is back to its starting value
after the invocation either way. -/
def invokeTestFn (fn : TestFn) (opRaises : Bool) (openTempFiles : Nat) :
    Nat × Nat × Except RunError Unit :=
  match fn with
  | .dumpTempFile _mode =>
      let during := openTempFiles + 1
      (during - 1, 1, if opRaises then .error .testFnError else .ok ())
  | _ => (openTempFiles, 0, if opRaises then .error .testFnError else .ok ())

/-- The process state `run_benchmark` leaves behind on a normal return:
the collector reflects the last run of the `setup` string (enabled iff
the spec's flag is unset), and the tracer is stopped by the profiler
unless the profiler never ran (PyPy). -/
def ok_state (spec : BenchmarkSpec) (env : Env) (s : ProcState) : ProcState :=
  ⟨!spec.py_gc_disabled, if env.pypy then s.tracing else false⟩

/-- The `BenchmarkResult` a successful `run_benchmark` returns. -/
def ok_result (spec : BenchmarkSpec) (env : Env) : BenchmarkResult :=
  let nanos := (raw_timings_of spec.iterations env).map
    (fun t => t / (batch_size_of env.testMode env.autorangeCount : ℚ))
  { nanos_per_op := nanos,
    ops_per_second := nanos.map (fun t => (1000000000 : ℚ) / t),
    peak_memory_usage := if env.pypy then none else some env.profPeak }

/-- A concrete specification used to evaluate the theorems: a supported
combination with two iterations. -/
def wSpec : BenchmarkSpec :=
  ⟨"buffer", "read", "load_dump", false, 0, 2, "ion_text", "f"⟩

/-- A concrete CPython environment in test mode: profiling reports a peak
of 7 bytes, nothing raises, every batch takes 3 nanoseconds. -/
def wEnv : Env := ⟨false, true, 1, 7, false, false, fun _ => 3⟩

/-- The same concrete environment on PyPy. -/
def wEnvPypy : Env := ⟨true, true, 1, 7, false, false, fun _ => 3⟩

/-- A concrete starting process state: collector enabled, tracer stopped. -/
def wState : ProcState := ⟨true, false⟩

/-! ## Theorems -/

/-- C1: the claim states that when the timed callable raises during the
single memory-profiling invocation, `_trace_memory_allocation` re-enables
the garbage collector and stops the allocation tracer before the
exception propagates.  Counterexample: starting from the usual state
(collector enabled, tracer stopped), a raising invocation leaves the
collector disabled and the tracer running. -/
theorem C1_counterexample :
    ¬ ((_trace_memory_allocation true 0 ⟨true, false⟩).1.gcEnabled = true ∧
       (_trace_memory_allocation true 0 ⟨true, false⟩).1.tracing = false) := by
  decide

/-- C1 (amended): if the timed callable raises during the single
memory-profiling invocation, the exception propagates with the garbage
collector still disabled and the allocation tracer still running; the
function restores neither (it has no `try`/`finally`). -/
theorem C1_raise_leaves_state_unrestored (peak : Nat) (s : ProcState) :
    (_trace_memory_allocation true peak s).1.gcEnabled = false ∧
    (_trace_memory_allocation true peak s).1.tracing = true ∧
    (_trace_memory_allocation true peak s).2 = .error .testFnError := by
  simp [_trace_memory_allocation]

/-- C10: after a successful call to `_trace_memory_allocation`, the
garbage collector is left enabled and the tracer stopped regardless of
the collector's state before the call: the profiler unconditionally
calls `gc.enable()` on exit rather than restoring the prior state. -/
theorem C10_success_enables_gc (peak : Nat) (s : ProcState) :
    (_trace_memory_allocation false peak s).1 = ⟨true, false⟩ ∧
    (_trace_memory_allocation false peak s).2 = .ok peak := by
  simp [_trace_memory_allocation]

/-- C3: for every `(io_type, command, api)` triple other than the four
supported combinations, `_create_test_fun` raises a `NotImplementedError`
carrying the triple, whose message names all three offending values, and
`run_benchmark` propagates it with the process state untouched — no
profiling, timing or sampling has happened. -/
theorem C3_unsupported_combination (fb fi : String → Bool)
    (spec : BenchmarkSpec)
    (h : [spec.io_type, spec.command, spec.api] ∉ supportedCombinations) :
    _create_test_fun fb fi spec =
      .error (.notImplemented [spec.io_type, spec.command, spec.api]) ∧
    (∀ v ∈ [spec.io_type, spec.command, spec.api], ∃ pre post,
      notImplementedMessage [spec.io_type, spec.command, spec.api] =
        pre ++ v ++ post) ∧
    (∀ env s, run_benchmark fb fi spec env s =
      (s, .error (.notImplemented [spec.io_type, spec.command, spec.api]))) := by
  simp only [supportedCombinations, List.mem_cons, List.not_mem_nil, or_false,
    not_or] at h
  obtain ⟨h1, h2, h3, h4⟩ := h
  have hfac : _create_test_fun fb fi spec =
      .error (.notImplemented [spec.io_type, spec.command, spec.api]) := by
    simp [_create_test_fun, h1, h2, h3, h4]
  refine ⟨hfac, ?_, ?_⟩
  · intro v hv
    simp only [List.mem_cons, List.not_mem_nil, or_false] at hv
    rcases hv with rfl | rfl | rfl
    · exact ⟨"Argument combination not supported: [" ++ pyQuote,
        pyQuote ++ ", " ++ pyStrRepr spec.command ++ ", " ++
          pyStrRepr spec.api ++ "]",
        by
          simp [notImplementedMessage, pyListRepr, pyListReprAux, pyStrRepr,
            String.append_assoc]
          rw [← String.append_assoc]
          rfl⟩
    · exact ⟨"Argument combination not supported: [" ++
        pyStrRepr spec.io_type ++ ", " ++ pyQuote,
        pyQuote ++ ", " ++ pyStrRepr spec.api ++ "]",
        by
          simp [notImplementedMessage, pyListRepr, pyListReprAux, pyStrRepr,
            String.append_assoc]
          rw [← String.append_assoc]
          rfl⟩
    · exact ⟨"Argument combination not supported: [" ++
        pyStrRepr spec.io_type ++ ", " ++ pyStrRepr spec.command ++ ", " ++
          pyQuote, pyQuote ++ "]",
        by
          simp [notImplementedMessage, pyListRepr, pyListReprAux, pyStrRepr,
            String.append_assoc]
          rw [← String.append_assoc]
          rfl⟩
  · intro env s
    simp [run_benchmark, hfac]

/-- Witness for C3: the unsupported triple `(stream, read, load_dump)`
makes the factory fail with the error naming the triple. -/
theorem C3_unsupported_combination_witness :
    _create_test_fun (fun _ => false) (fun _ => false)
      ⟨"stream", "read", "load_dump", false, 0, 1, "ion_binary", "f"⟩ =
      .error (.notImplemented ["stream", "read", "load_dump"]) :=
  (C3_unsupported_combination (fun _ => false) (fun _ => false)
    ⟨"stream", "read", "load_dump", false, 0, 1, "ion_binary", "f"⟩
    (by decide)).1

/-- Inversion on a successful `run_benchmark`: a normal return determines
the final process state and the result. -/
theorem run_benchmark_ok_inv (fb fi : String → Bool) (spec : BenchmarkSpec)
    (env : Env) (s : ProcState) (res : BenchmarkResult)
    (h : (run_benchmark fb fi spec env s).2 = Except.ok res) :
    run_benchmark fb fi spec env s =
      (ok_state spec env s, .ok (ok_result spec env)) ∧
    res = ok_result spec env := by
  cases hc : _create_test_fun fb fi spec with
  | error e => simp [run_benchmark, hc] at h
  | ok fn =>
    by_cases hp : env.pypy
    · by_cases ht : env.timedRaises
      · simp [run_benchmark, hc, hp, ht] at h
      · simp only [run_benchmark, hc, hp, ht] at h ⊢
        simp only [if_true, Bool.false_eq_true, if_false] at h ⊢
        refine ⟨?_, ?_⟩
        · simp [ok_state, ok_result, hp]
        · simp [ok_result, hp] at h ⊢
          exact h.symm
    · by_cases hr : env.profRaises
      · simp [run_benchmark, hc, hp, hr, _trace_memory_allocation] at h
      · by_cases ht : env.timedRaises
        · simp [run_benchmark, hc, hp, hr, ht, _trace_memory_allocation] at h
        · simp only [run_benchmark, hc, hp, hr, ht,
            _trace_memory_allocation] at h ⊢
          simp [ok_state, ok_result, hp] at h ⊢
          exact h.symm

/-- C2: the claim states that on every exit path of `run_benchmark` the
collector is left re-enabled — in particular after a run whose spec sets
the GC-disabled flag.  Counterexample: a run with `py_gc_disabled = true`
returns normally with the collector still disabled, because the timing
`setup` string disabled it and nothing re-enables it afterwards. -/
theorem C2_counterexample :
    (run_benchmark (fun _ => false) (fun _ => false)
        ⟨"buffer", "read", "load_dump", true, 0, 0, "ion_text", "f"⟩
        ⟨true, true, 1, 0, false, false, fun _ => 0⟩ ⟨true, false⟩).2 =
      .ok ⟨[], [], none⟩ ∧
    ¬ ((run_benchmark (fun _ => false) (fun _ => false)
        ⟨"buffer", "read", "load_dump", true, 0, 0, "ion_text", "f"⟩
        ⟨true, true, 1, 0, false, false, fun _ => 0⟩
        ⟨true, false⟩).1.gcEnabled = true) := by
  refine ⟨rfl, ?_⟩
  intro hcontra
  simp [run_benchmark, _create_test_fun] at hcontra

/-- C2 (amended): `run_benchmark` restores nothing.  On a normal return
the collector is enabled exactly when the spec's GC-disabled flag is
unset (so after a flag-set run it stays disabled), with the tracer
stopped provided it was stopped on entry; and when the timed callable
raises during the memory-profiling step, the exception propagates with
the collector disabled and the tracer running. -/
theorem C2_amended_no_restore (fb fi : String → Bool)
    (spec : BenchmarkSpec) (env : Env) (s : ProcState)
    (res : BenchmarkResult) (hs : s.tracing = false)
    (h : (run_benchmark fb fi spec env s).2 = Except.ok res) :
    (run_benchmark fb fi spec env s).1 = ⟨!spec.py_gc_disabled, false⟩ ∧
    (∀ env2 : Env, env2.pypy = false → env2.profRaises = true →
      (run_benchmark fb fi spec env2 s).1 = ⟨false, true⟩ ∧
      (run_benchmark fb fi spec env2 s).2 = .error .testFnError) := by
  obtain ⟨heq, -⟩ := run_benchmark_ok_inv fb fi spec env s res h
  constructor
  · rw [heq]
    simp [ok_state, hs]
  · intro env2 hp2 hr2
    cases hc : _create_test_fun fb fi spec with
    | error e => simp [run_benchmark, hc] at h
    | ok fn =>
      constructor <;>
        simp [run_benchmark, hc, hp2, hr2, _trace_memory_allocation]

/-- Witness for C2 (amended): on a concrete GC-enabled run the final
state is (enabled, stopped); the same spec with a raising profiling
invocation leaves (disabled, running). -/
theorem C2_amended_no_restore_witness :
    wState.tracing = false ∧
    (run_benchmark (fun _ => false) (fun _ => false) wSpec wEnv wState).2 =
      Except.ok (ok_result wSpec wEnv) ∧
    (run_benchmark (fun _ => false) (fun _ => false) wSpec wEnv wState).1 =
      ⟨!wSpec.py_gc_disabled, false⟩ ∧
    (run_benchmark (fun _ => false) (fun _ => false) wSpec
        ⟨false, true, 1, 7, true, false, fun _ => 3⟩ wState).1 =
      ⟨false, true⟩ :=
  ⟨rfl, rfl,
    (C2_amended_no_restore (fun _ => false) (fun _ => false) wSpec wEnv
      wState (ok_result wSpec wEnv) rfl rfl).1,
    ((C2_amended_no_restore (fun _ => false) (fun _ => false) wSpec wEnv
      wState (ok_result wSpec wEnv) rfl rfl).2
      ⟨false, true, 1, 7, true, false, fun _ => 3⟩ rfl rfl).1⟩

/-- C5: the batch size is 1 in test mode and 5 times the auto-ranged
count otherwise, hence at least 1 whenever the auto-ranged count is
(as `timeit` guarantees), so the normalization divisor is never zero. -/
theorem C5_batch_size_positive (tm : Bool) (c : Nat) (hc : 1 ≤ c) :
    1 ≤ batch_size_of tm c ∧ ((batch_size_of tm c : ℚ) ≠ 0) ∧
    (tm = true → batch_size_of tm c = 1) ∧
    (tm = false → batch_size_of tm c = c * 5) := by
  unfold batch_size_of
  cases tm <;> simp
  omega

/-- Witness for C5 outside test mode with an auto-ranged count of 2. -/
theorem C5_batch_size_positive_witness :
    1 ≤ 2 ∧
    (1 ≤ batch_size_of false 2 ∧ ((batch_size_of false 2 : ℚ) ≠ 0) ∧
     (false = true → batch_size_of false 2 = 1) ∧
     (false = false → batch_size_of false 2 = 2 * 5)) :=
  ⟨by decide, C5_batch_size_positive false 2 (by decide)⟩

/-- Helper: multiplying each reciprocal-scaled sample back by the sample
gives the scale, for a list of non-zero samples. -/
theorem zipWith_inv_mul (l : List ℚ) (hl : ∀ x ∈ l, x ≠ 0) :
    List.zipWith (fun a b => a * b)
      (l.map (fun t => (1000000000 : ℚ) / t)) l =
    List.replicate l.length (1000000000 : ℚ) := by
  induction l with
  | nil => simp
  | cons x xs ih =>
    simp only [List.map_cons, List.zipWith_cons_cons, List.length_cons,
      List.replicate_succ, List.cons.injEq]
    constructor
    · exact div_mul_cancel₀ _ (hl x (List.mem_cons_self x xs))
    · exact ih (fun y hy => hl y (List.mem_cons_of_mem x hy))

/-- C4: on a normal return, `nanos_per_op[i] = raw_timings[i] / batch_size`
and `ops_per_second[i] = 1e9 / nanos_per_op[i]` for every index, so
`ops_per_second[i] * nanos_per_op[i] = 1e9` exactly for every sample
(the source computes in floats; over the rationals the identity is
exact), given positive raw timings and the auto-range guarantee. -/
theorem C4_normalization (fb fi : String → Bool) (spec : BenchmarkSpec)
    (env : Env) (s : ProcState) (res : BenchmarkResult)
    (h : (run_benchmark fb fi spec env s).2 = Except.ok res)
    (hauto : 1 ≤ env.autorangeCount)
    (hpos : ∀ i, 0 < env.rawTiming i) :
    res.nanos_per_op = (raw_timings_of spec.iterations env).map
      (fun t => t / (batch_size_of env.testMode env.autorangeCount : ℚ)) ∧
    res.ops_per_second =
      res.nanos_per_op.map (fun t => (1000000000 : ℚ) / t) ∧
    List.zipWith (fun a b => a * b) res.ops_per_second res.nanos_per_op =
      List.replicate spec.iterations (1000000000 : ℚ) := by
  obtain ⟨-, hres⟩ := run_benchmark_ok_inv fb fi spec env s res h
  subst hres
  have hb : 1 ≤ batch_size_of env.testMode env.autorangeCount := by
    unfold batch_size_of
    cases env.testMode <;> simp
    omega
  have hbq : (0 : ℚ) < (batch_size_of env.testMode env.autorangeCount : ℚ) := by
    exact_mod_cast Nat.lt_of_lt_of_le Nat.zero_lt_one hb
  refine ⟨rfl, rfl, ?_⟩
  have hne : ∀ x ∈ (raw_timings_of spec.iterations env).map
      (fun t => t / (batch_size_of env.testMode env.autorangeCount : ℚ)),
      x ≠ 0 := by
    intro x hx
    simp only [raw_timings_of, List.map_map, List.mem_map,
      List.mem_range] at hx
    obtain ⟨i, -, rfl⟩ := hx
    exact ne_of_gt (div_pos (hpos i) hbq)
  have hlen : ((raw_timings_of spec.iterations env).map
      (fun t => t /
        (batch_size_of env.testMode env.autorangeCount : ℚ))).length =
      spec.iterations := by
    simp [raw_timings_of]
  calc List.zipWith (fun a b => a * b)
        (ok_result spec env).ops_per_second (ok_result spec env).nanos_per_op
      = List.replicate ((ok_result spec env).nanos_per_op).length
          (1000000000 : ℚ) := zipWith_inv_mul _ hne
    _ = List.replicate spec.iterations (1000000000 : ℚ) := by
        rw [show ((ok_result spec env).nanos_per_op).length = spec.iterations
          from hlen]

/-- Witness for C4 on a concrete two-iteration run: every batch takes 3
nanoseconds at batch size 1, so the products are exactly 1e9. -/
theorem C4_normalization_witness :
    (run_benchmark (fun _ => false) (fun _ => false) wSpec wEnv wState).2 =
      Except.ok (ok_result wSpec wEnv) ∧
    1 ≤ wEnv.autorangeCount ∧ (∀ i, 0 < wEnv.rawTiming i) ∧
    ((ok_result wSpec wEnv).nanos_per_op =
      (raw_timings_of wSpec.iterations wEnv).map
        (fun t => t / (batch_size_of wEnv.testMode wEnv.autorangeCount : ℚ)) ∧
     (ok_result wSpec wEnv).ops_per_second =
      (ok_result wSpec wEnv).nanos_per_op.map
        (fun t => (1000000000 : ℚ) / t) ∧
     List.zipWith (fun a b => a * b) (ok_result wSpec wEnv).ops_per_second
        (ok_result wSpec wEnv).nanos_per_op =
      List.replicate wSpec.iterations (1000000000 : ℚ)) :=
  ⟨rfl, by decide, fun _ => by norm_num [wEnv],
    C4_normalization (fun _ => false) (fun _ => false) wSpec wEnv wState
      (ok_result wSpec wEnv) rfl (by decide) (fun _ => by norm_num [wEnv])⟩

/-- C6: under the test-harness marker the batch size is fixed at 1 and a
normal return carries exactly `iterations` samples: `nanos_per_op` is the
raw timings divided by 1, and both distributions have the iteration
count's cardinality, equal to that of the raw timings. -/
theorem C6_test_mode_sample_count (fb fi : String → Bool)
    (spec : BenchmarkSpec) (env : Env) (s : ProcState)
    (res : BenchmarkResult) (htm : env.testMode = true)
    (h : (run_benchmark fb fi spec env s).2 = Except.ok res) :
    batch_size_of env.testMode env.autorangeCount = 1 ∧
    res.nanos_per_op =
      (raw_timings_of spec.iterations env).map (fun t => t / (1 : ℚ)) ∧
    res.nanos_per_op.length = spec.iterations ∧
    res.ops_per_second.length = spec.iterations ∧
    (raw_timings_of spec.iterations env).length = spec.iterations := by
  obtain ⟨-, hres⟩ := run_benchmark_ok_inv fb fi spec env s res h
  have hb : batch_size_of env.testMode env.autorangeCount = 1 := by
    simp [batch_size_of, htm]
  subst hres
  refine ⟨hb, ?_, ?_, ?_, ?_⟩ <;>
    simp [ok_result, hb, raw_timings_of]

/-- Witness for C6: the concrete test-mode run produces 2 samples from 2
iterations. -/
theorem C6_test_mode_sample_count_witness :
    wEnv.testMode = true ∧
    (run_benchmark (fun _ => false) (fun _ => false) wSpec wEnv wState).2 =
      Except.ok (ok_result wSpec wEnv) ∧
    (batch_size_of wEnv.testMode wEnv.autorangeCount = 1 ∧
     (ok_result wSpec wEnv).nanos_per_op =
      (raw_timings_of wSpec.iterations wEnv).map (fun t => t / (1 : ℚ)) ∧
     (ok_result wSpec wEnv).nanos_per_op.length = wSpec.iterations ∧
     (ok_result wSpec wEnv).ops_per_second.length = wSpec.iterations ∧
     (raw_timings_of wSpec.iterations wEnv).length = wSpec.iterations) :=
  ⟨rfl, rfl,
    C6_test_mode_sample_count (fun _ => false) (fun _ => false) wSpec wEnv
      wState (ok_result wSpec wEnv) rfl rfl⟩

/-- C7: the peak-memory measurement a run produces is non-negative and
independent of the spec's GC-disabled flag: two runs differing only in
that flag report the same peak, because the profiler disables the
collector unconditionally around its single invocation without ever
reading the flag. -/
theorem C7_memory_independent_of_gc_flag (fb fi : String → Bool)
    (spec : BenchmarkSpec) (env : Env) (s : ProcState) (b1 b2 : Bool)
    (r1 r2 : BenchmarkResult)
    (h1 : (run_benchmark fb fi { spec with py_gc_disabled := b1 } env s).2 =
      Except.ok r1)
    (h2 : (run_benchmark fb fi { spec with py_gc_disabled := b2 } env s).2 =
      Except.ok r2) :
    r1.peak_memory_usage = r2.peak_memory_usage ∧
    (∀ m, r1.peak_memory_usage = some m → 0 ≤ m) ∧
    (∀ fnRaises peak st,
      (_trace_memory_allocation fnRaises peak st).1.gcEnabled = false ∨
      (_trace_memory_allocation fnRaises peak st).2 = .ok peak) := by
  obtain ⟨-, e1⟩ := run_benchmark_ok_inv fb fi _ env s r1 h1
  obtain ⟨-, e2⟩ := run_benchmark_ok_inv fb fi _ env s r2 h2
  subst e1; subst e2
  refine ⟨by simp [ok_result], by simp, ?_⟩
  intro fnRaises peak st
  cases fnRaises <;> simp [_trace_memory_allocation]

/-- Witness for C7: flag-set and flag-clear runs of the same concrete
benchmark report the same peak of 7 bytes. -/
theorem C7_memory_independent_of_gc_flag_witness :
    (run_benchmark (fun _ => false) (fun _ => false)
        { wSpec with py_gc_disabled := true } wEnv wState).2 =
      Except.ok (ok_result { wSpec with py_gc_disabled := true } wEnv) ∧
    (run_benchmark (fun _ => false) (fun _ => false)
        { wSpec with py_gc_disabled := false } wEnv wState).2 =
      Except.ok (ok_result { wSpec with py_gc_disabled := false } wEnv) ∧
    (ok_result { wSpec with py_gc_disabled := true } wEnv).peak_memory_usage =
      (ok_result { wSpec with py_gc_disabled := false }
        wEnv).peak_memory_usage :=
  ⟨rfl, rfl,
    (C7_memory_independent_of_gc_flag (fun _ => false) (fun _ => false)
      wSpec wEnv wState true false
      (ok_result { wSpec with py_gc_disabled := true } wEnv)
      (ok_result { wSpec with py_gc_disabled := false } wEnv) rfl rfl).1⟩

/-- C8: on a runtime without the allocation tracer (detected once at
process start), a run over any supported combination that does not fail
in the timed region returns normally with `peak_memory_usage` absent
(`none`, not zero) and never touches the tracer. -/
theorem C8_pypy_skips_memory_tracing (fb fi : String → Bool)
    (spec : BenchmarkSpec) (env : Env) (s : ProcState)
    (hp : env.pypy = true) (ht : env.timedRaises = false)
    (hsup : [spec.io_type, spec.command, spec.api] ∈ supportedCombinations) :
    ∃ res, (run_benchmark fb fi spec env s).2 = Except.ok res ∧
      res.peak_memory_usage = none ∧
      (run_benchmark fb fi spec env s).1.tracing = s.tracing := by
  have hfn : ∃ fn, _create_test_fun fb fi spec = .ok fn := by
    simp only [supportedCombinations, List.mem_cons, List.not_mem_nil,
      or_false] at hsup
    rcases hsup with hcomb | hcomb | hcomb | hcomb <;>
      (simp only [List.cons.injEq, and_true] at hcomb
       obtain ⟨ha, hb, hc⟩ := hcomb
       simp [_create_test_fun, ha, hb, hc])
    split <;> exact ⟨_, rfl⟩
  obtain ⟨fn, hc⟩ := hfn
  refine ⟨ok_result spec env, ?_, ?_, ?_⟩ <;>
    simp [run_benchmark, hc, hp, ht, ok_result]

/-- Witness for C8: the concrete benchmark on the PyPy environment
returns with an absent memory measurement. -/
theorem C8_pypy_skips_memory_tracing_witness :
    wEnvPypy.pypy = true ∧ wEnvPypy.timedRaises = false ∧
    [wSpec.io_type, wSpec.command, wSpec.api] ∈ supportedCombinations ∧
    (∃ res, (run_benchmark (fun _ => false) (fun _ => false) wSpec wEnvPypy
        wState).2 = Except.ok res ∧
      res.peak_memory_usage = none ∧
      (run_benchmark (fun _ => false) (fun _ => false) wSpec wEnvPypy
        wState).1.tracing = wState.tracing) :=
  ⟨rfl, rfl, by decide,
    C8_pypy_skips_memory_tracing (fun _ => false) (fun _ => false) wSpec
      wEnvPypy wState rfl rfl (by decide)⟩

/-- C9: for the `(file, write, load_dump)` combination the factory
classifies the format during untimed setup and returns the
temporary-file dump callable, in binary mode exactly when the format is
binary or Ion and text mode otherwise; each invocation of that callable
opens exactly one fresh temporary file and leaves no temporary file open
afterwards, whether or not the serialization raises. -/
theorem C9_file_write_temp_file (fb fi : String → Bool)
    (spec : BenchmarkSpec) (hio : spec.io_type = "file")
    (hcmd : spec.command = "write") (hapi : spec.api = "load_dump") :
    _create_test_fun fb fi spec =
      .ok (.dumpTempFile
        (if fb spec.format || fi spec.format then "wb" else "wt")) ∧
    (∀ mode opRaises n,
      (invokeTestFn (.dumpTempFile mode) opRaises n).1 = n ∧
      (invokeTestFn (.dumpTempFile mode) opRaises n).2.1 = 1) := by
  constructor
  · by_cases hfmt : fb spec.format || fi spec.format <;>
      simp [_create_test_fun, hio, hcmd, hapi, hfmt]
  · intro mode opRaises n
    simp [invokeTestFn]

/-- Witness for C9: a binary-format file-write spec yields the
binary-mode temporary-file callable, and a raising invocation starting
with no open temporary files opens one and ends with none. -/
theorem C9_file_write_temp_file_witness :
    _create_test_fun (fun f => f == "ion_binary") (fun _ => false)
        ⟨"file", "write", "load_dump", false, 0, 3, "ion_binary", "f"⟩ =
      .ok (.dumpTempFile
        (if (fun f => f == "ion_binary") "ion_binary" ||
            (fun _ : String => false) "ion_binary" then "wb" else "wt")) ∧
    (invokeTestFn (.dumpTempFile "wb") true 0).1 = 0 ∧
    (invokeTestFn (.dumpTempFile "wb") true 0).2.1 = 1 :=
  ⟨(C9_file_write_temp_file (fun f => f == "ion_binary") (fun _ => false)
      ⟨"file", "write", "load_dump", false, 0, 3, "ion_binary", "f"⟩
      rfl rfl rfl).1,
   (C9_file_write_temp_file (fun f => f == "ion_binary") (fun _ => false)
      ⟨"file", "write", "load_dump", false, 0, 3, "ion_binary", "f"⟩
      rfl rfl rfl).2 "wb" true 0⟩
